import Mathlib

/-!
Verification development for the hp-wmi-sensors hwmon driver
(`src/hp-wmi-sensors.c`).  The definitions below are a shallow embedding of
the driver's sensor-record validator (`check_wobj`), decoder
(`populate_numeric_sensor_from_wobj`), classifier
(`classify_numeric_sensor`), unit scaler (`scale_numeric_sensor`),
fungible-field updater (`update_numeric_sensor_from_wobj`), freshness-gated
poll (`hp_wmi_update_info`), background refresh task
(`hp_wmi_sensors_refresh_task`) and the discovery loop of
`hp_wmi_sensors_init`.  Machine integers are modelled as `Nat`/`Int` with
explicit reductions modulo 2^32 where the C code truncates to `u32`, and
`long` arithmetic is 64-bit (`LONG_MAX = 2^63 - 1`).  C integer division
(truncation toward zero) is `Int.tdiv`.
-/

/-- Maximum value of a 64-bit signed `long`, as used by the driver. -/
def LONG_MAX : Int := 9223372036854775807

/-- Minimum value of a 64-bit signed `long`. -/
def LONG_MIN : Int := -9223372036854775808

/-- Jiffies per second.  `CONFIG_HZ` is configuration dependent; the
theorems below do not depend on the concrete value. -/
def HZ : Nat := 1000

/-- Reduce a firmware-supplied 64-bit integer to `u32`, as the C code does
when assigning `element->integer.value` to a `u32` local. -/
def toU32 (v : Nat) : Nat := v % 4294967296

/-- Reinterpret a `u32` value as the signed `s32` it encodes, as the C cast
`(s32)value` does for `UnitModifier`. -/
def toS32 (v : Nat) : Int :=
  if v % 4294967296 < 2147483648 then ((v % 4294967296 : Nat) : Int)
  else ((v % 4294967296 : Nat) : Int) - 4294967296

/-- One element of a WMI object instance package: an ACPI object that is an
integer, a string, or something of any other ACPI type. -/
inductive AcpiElem where
  | int (v : Nat)
  | str (s : String)
  | other
deriving DecidableEq

/-- A raw WMI object instance as returned by `wmidev_block_query`: either a
top-level `ACPI_TYPE_PACKAGE` with its flattened element array, or an
object of some other top-level type. -/
inductive Wobj where
  | package (elements : List AcpiElem)
  | nonPackage
deriving DecidableEq

/-- The element array of a wobj (empty for a non-package). -/
def wobjElements : Wobj → List AcpiElem
  | .package es => es
  | .nonPackage => []

/-- Does an element's ACPI type agree with `hp_wmi_property_map[prop]`?
Properties 2 (SensorType), 4 (OperationalStatus), 7 (BaseUnits),
8 (UnitModifier) and 9 (CurrentReading) are `ACPI_TYPE_INTEGER`; properties
0 (Name), 1 (Description), 3 (OtherSensorType), 5 (CurrentState) and
6 (PossibleStates) are `ACPI_TYPE_STRING`. -/
def elemMatches (e : AcpiElem) (prop : Nat) : Bool :=
  match e with
  | .int _ => prop = 2 ∨ prop = 4 ∨ prop = 7 ∨ prop = 8 ∨ prop = 9
  | .str _ => prop = 0 ∨ prop = 1 ∨ prop = 3 ∨ prop = 5 ∨ prop = 6
  | .other => false

/-- Number of consecutive leading string elements, as counted by the
PossibleStates lookahead loop inside `check_wobj`. -/
def countLeadingStrings : List AcpiElem → Nat
  | .str _ :: rest => countLeadingStrings rest + 1
  | _ => 0

/-- The portion of the `check_wobj` walk that follows the PossibleStates
lookahead: the remaining elements are matched against properties
`prop = 7, 8, 9` (BaseUnits, UnitModifier, CurrentReading), and at the end
the C code requires a nonzero state count and `prop` strictly past
CurrentReading.  (In the C source this is the tail of the single property
loop; after the lookahead the property index is at least 7, so the
lookahead branch can no longer fire and the loop is equivalent to this
function.) -/
def check_walk2 : List AcpiElem → Nat → Nat → Option Nat
  | [], prop, count => if count = 0 ∨ prop ≤ 9 then none else some count
  | e :: rest, prop, count =>
    if 9 < prop then none
    else if elemMatches e prop then check_walk2 rest (prop + 1) count
    else none

/-- The portion of the `check_wobj` walk up to and including CurrentState
(properties 0..5).  On reaching property 5 it performs the PossibleStates
lookahead: it counts the consecutive string elements that follow, skips
them, and resumes schema matching at property 7 via `check_walk2`.  If the
element array ends before the lookahead is reached, the state count is
still zero and the record is rejected, exactly as in the C code. -/
def check_walk1 : List AcpiElem → Nat → Option Nat
  | [], _ => none
  | e :: rest, prop =>
    if 9 < prop then none
    else if elemMatches e prop then
      if prop = 5 then
        check_walk2 (rest.drop (countLeadingStrings rest)) 7 (countLeadingStrings rest)
      else check_walk1 rest (prop + 1)
    else none

/-- `check_wobj` - validate a HP_BIOSNumericSensor WMI object instance.
Returns the discovered PossibleStates count on success (`some count`
standing for the C function returning 0 and writing the out-parameter),
or `none` for a negative error code. -/
def check_wobj : Wobj → Option Nat
  | .nonPackage => none
  | .package elems =>
    if 32 < elems.length then none
    else check_walk1 elems 0

/-- Decoded `struct hp_wmi_numeric_sensor`. -/
structure NumericSensor where
  name : String
  description : String
  sensor_type : Nat
  other_sensor_type : String
  operational_status : Nat
  current_state : String
  possible_states : List String
  base_units : Nat
  unit_modifier : Int
  current_reading : Nat
  possible_states_count : Nat
deriving DecidableEq

/-- `hp_wmi_strdup` - length-limited string copy (`HP_WMI_MAX_STR_SIZE` is
128, so at most 127 characters are kept). -/
def hp_wmi_strdup (s : String) : String := s.take 127

/-- Reading `element->integer.value` from an element.  The C code reads the
union member according to the schema without checking the runtime type;
for a non-integer element the value read is unspecified, modelled here as
0 (no theorem below depends on it). -/
def intVal : AcpiElem → Nat
  | .int v => v
  | _ => 0

/-- Reading `element->string.pointer` from an element; unspecified (here
the empty string) for a non-string element, as for `intVal`. -/
def strVal : AcpiElem → String
  | .str s => s
  | _ => ""

/-- Fetch `elements[i]`; an out-of-bounds index (impossible for the inputs
the driver produces, which were sized by `check_wobj`) yields a junk
element. -/
def elemAt (es : List AcpiElem) (i : Nat) : AcpiElem := es.getD i (.int 0)

/-- The property loop of `populate_numeric_sensor_from_wobj`: `prop` is the
property being decoded, `cnt` the local countdown copy of
`possible_states_count`.  The SensorType case rejects values above
`HP_WMI_TYPE_AIR_FLOW` (12), and skips the OtherSensorType element when the
value is not `HP_WMI_TYPE_OTHER` (1); the PossibleStates case keeps the
property index at 6 until the countdown reaches zero, mirroring the
`if (--possible_states_count) prop--;` in the C source.  Running out of
elements (which `check_wobj` rules out for actual inputs) is an error. -/
def popLoop : List AcpiElem → Nat → Nat → NumericSensor → Option NumericSensor
  | _, 10, _, ns => some ns
  | [], _, _, _ => none
  | e :: rest, 0, cnt, ns => popLoop rest 1 cnt { ns with name := hp_wmi_strdup (strVal e) }
  | e :: rest, 1, cnt, ns =>
    popLoop rest 2 cnt { ns with description := hp_wmi_strdup (strVal e) }
  | e :: rest, 2, cnt, ns =>
    if 12 < toU32 (intVal e) then none
    else if toU32 (intVal e) ≠ 1 then
      match rest with
      | [] => none
      | _ :: r2 => popLoop r2 4 cnt { ns with sensor_type := toU32 (intVal e) }
    else popLoop rest 3 cnt { ns with sensor_type := toU32 (intVal e) }
  | e :: rest, 3, cnt, ns =>
    popLoop rest 4 cnt { ns with other_sensor_type := hp_wmi_strdup (strVal e) }
  | e :: rest, 4, cnt, ns =>
    popLoop rest 5 cnt { ns with operational_status := toU32 (intVal e) }
  | e :: rest, 5, cnt, ns =>
    popLoop rest 6 cnt { ns with current_state := hp_wmi_strdup (strVal e) }
  | e :: rest, 6, cnt, ns =>
    popLoop rest (if cnt - 1 = 0 then 7 else 6) (cnt - 1)
      { ns with possible_states := ns.possible_states ++ [hp_wmi_strdup (strVal e)] }
  | e :: rest, 7, cnt, ns => popLoop rest 8 cnt { ns with base_units := toU32 (intVal e) }
  | e :: rest, 8, cnt, ns => popLoop rest 9 cnt { ns with unit_modifier := toS32 (intVal e) }
  | e :: rest, _, cnt, ns =>
    popLoop rest 10 cnt { ns with current_reading := toU32 (intVal e) }

/-- `populate_numeric_sensor_from_wobj` - decode a validated wobj into a
`NumericSensor`.  The C function first runs `check_wobj`, records the
discovered count in `possible_states_count`, then decodes the properties in
order; `none` stands for any negative error return. -/
def populate_numeric_sensor_from_wobj (wobj : Wobj) : Option NumericSensor :=
  match check_wobj wobj with
  | none => none
  | some n =>
    popLoop (wobjElements wobj) 0 n
      { name := "", description := "", sensor_type := 0, other_sensor_type := "",
        operational_status := 0, current_state := "", possible_states := [],
        base_units := 0, unit_modifier := 0, current_reading := 0,
        possible_states_count := n }

/-- `numeric_sensor_has_fault`: true when the operational status is not
`HP_WMI_STATUS_OK` (2) or the current reading is zero. -/
def numeric_sensor_has_fault (ns : NumericSensor) : Bool :=
  ns.operational_status ≠ 2 ∨ ns.current_reading = 0

/-- `classify_numeric_sensor` - classify a numeric sensor from its
`sensor_type` and `base_units` vendor codes.  Returns the
`enum hp_wmi_type` value on success or `-EINVAL` (-22). -/
def classify_numeric_sensor (ns : NumericSensor) : Int :=
  if ns.sensor_type = 2 then
    if ns.base_units = 2 ∨ ns.base_units = 3 ∨ ns.base_units = 4 then 2 else -22
  else if ns.sensor_type = 3 then
    if ns.base_units = 5 then 3 else -22
  else if ns.sensor_type = 4 then
    if ns.base_units = 6 then 4 else -22
  else if ns.sensor_type = 12 then
    if ns.base_units = 19 then 12 else -22
  else -22

/-- The kernel `DIV_ROUND_CLOSEST` macro for signed operands: round to
nearest, half away from zero.  The condition mirrors
`((x) > 0) == ((divisor) > 0)`. -/
def div_round_closest (x d : Int) : Int :=
  if (0 < x ∧ 0 < d) ∨ (¬ 0 < x ∧ ¬ 0 < d) then Int.tdiv (x + Int.tdiv d 2) d
  else Int.tdiv (x - Int.tdiv d 2) d

/-- The decade-shrinking loop of `scale_numeric_sensor`
(`unit_modifier < target_modifier`): each step divides by 10 rounding to
nearest via `DIV_ROUND_CLOSEST`. -/
def scale_loop_down : Int → Nat → Int
  | val, 0 => val
  | val, n + 1 => scale_loop_down (div_round_closest val 10) n

/-- The decade-growing loop of `scale_numeric_sensor`
(`unit_modifier > target_modifier`): each step multiplies by 10, but if
`val > LONG_MAX / 10` the value saturates to `LONG_MAX` and the loop
breaks. -/
def scale_loop_up : Int → Nat → Int
  | val, 0 => val
  | val, n + 1 =>
    if Int.tdiv LONG_MAX 10 < val then LONG_MAX
    else scale_loop_up (val * 10) n

/-- `target_modifier`: 0 for fan (Air Flow, type 12) readings in RPM,
-3 (milliunits) for everything else. -/
def targetModifier (sensor_type : Nat) : Int := if sensor_type = 12 then 0 else -3

/-- The decade-scaling phase of `scale_numeric_sensor`: run whichever loop
the comparison of `unit_modifier` with `target_modifier` selects. -/
def decade_scale (reading um target : Int) : Int :=
  if um < target then scale_loop_down reading (target - um).toNat
  else scale_loop_up reading (um - target).toNat

/-- The temperature-unit conversion tail of `scale_numeric_sensor`:
Fahrenheit subtracts `32 * MILLI` then multiplies by 5 and divides by 9
with C truncating division, split as `(val * 5) / 9` when
`val <= LONG_MAX / 5` and `(val / 9) * 5` otherwise; Kelvin applies
`milli_kelvin_to_millicelsius` (subtract 273150).  Non-temperature sensors
and other temperature units pass through unchanged. -/
def temp_adjust (st bu : Nat) (val : Int) : Int :=
  if st = 2 then
    if bu = 3 then
      let v := val - 32 * 1000
      if v ≤ Int.tdiv LONG_MAX 5 then Int.tdiv (v * 5) 9 else Int.tdiv v 9 * 5
    else if bu = 4 then val - 273150
    else val
  else val

/-- The decade-scaling phase applied to a sensor's own fields. -/
def decade_part (ns : NumericSensor) : Int :=
  decade_scale (ns.current_reading : Int) ns.unit_modifier (targetModifier ns.sensor_type)

/-- `scale_numeric_sensor` - scale a sensor reading for hwmon. -/
def scale_numeric_sensor (ns : NumericSensor) : Int :=
  temp_adjust ns.sensor_type ns.base_units (decade_part ns)

/-- Check that an intermediate `long` value is representable: outside
`[LONG_MIN, LONG_MAX]` a C computation would have wrapped (undefined
behaviour), modelled as `none`. -/
def chk (v : Int) : Option Int :=
  if LONG_MIN ≤ v ∧ v ≤ LONG_MAX then some v else none

/-- Overflow-checked version of `scale_loop_down`: every intermediate sum
of the `DIV_ROUND_CLOSEST` expansion is range-checked. -/
def scale_loop_down_chk : Int → Nat → Option Int
  | val, 0 => some val
  | val, n + 1 =>
    match (if 0 < val then chk (val + 5) else chk (val - 5)) with
    | none => none
    | some t => scale_loop_down_chk (Int.tdiv t 10) n

/-- Overflow-checked version of `scale_loop_up`: the multiplication by 10
is range-checked (the saturation branch performs no arithmetic). -/
def scale_loop_up_chk : Int → Nat → Option Int
  | val, 0 => some val
  | val, n + 1 =>
    if Int.tdiv LONG_MAX 10 < val then some LONG_MAX
    else
      match chk (val * 10) with
      | none => none
      | some t => scale_loop_up_chk t n

/-- Overflow-checked version of `temp_adjust`. -/
def temp_adjust_chk (st bu : Nat) (val : Int) : Option Int :=
  if st = 2 then
    if bu = 3 then
      match chk (val - 32 * 1000) with
      | none => none
      | some v =>
        if v ≤ Int.tdiv LONG_MAX 5 then
          match chk (v * 5) with
          | none => none
          | some p => some (Int.tdiv p 9)
        else chk (Int.tdiv v 9 * 5)
    else if bu = 4 then chk (val - 273150)
    else some val
  else some val

/-- Overflow-checked version of `decade_scale`. -/
def decade_scale_chk (reading um target : Int) : Option Int :=
  if um < target then scale_loop_down_chk reading (target - um).toNat
  else scale_loop_up_chk reading (um - target).toNat

/-- Overflow-checked version of `scale_numeric_sensor`: returns `some` of
the scaled value exactly when no intermediate step of the C computation
leaves the representable `long` range. -/
def scale_numeric_sensor_chk (ns : NumericSensor) : Option Int :=
  match decade_scale_chk (ns.current_reading : Int) ns.unit_modifier
      (targetModifier ns.sensor_type) with
  | none => none
  | some d => temp_adjust_chk ns.sensor_type ns.base_units d

/-- Modelled from the spec: the mathematically correct decade-scaled value,
i.e. the same algorithm run on unbounded integers, where growing by a
decade multiplies exactly by 10 with no saturation (shrinking already
rounds per step exactly as specified). -/
def decade_unbounded (reading um target : Int) : Int :=
  if um < target then scale_loop_down reading (target - um).toNat
  else reading * 10 ^ (um - target).toNat

/-- Modelled from the spec: the mathematically correct scaled value in the
category's canonical fixed-point unit - unbounded decade scaling followed
by the exact temperature conversion (`(v - 32000) * 5 / 9` truncated for
Fahrenheit, `v - 273150` for Kelvin). -/
def scale_exact (ns : NumericSensor) : Int :=
  let d := decade_unbounded (ns.current_reading : Int) ns.unit_modifier
    (targetModifier ns.sensor_type)
  if ns.sensor_type = 2 then
    if ns.base_units = 3 then Int.tdiv ((d - 32 * 1000) * 5) 9
    else if ns.base_units = 4 then d - 273150
    else d
  else d

/-- `update_numeric_sensor_from_wobj` - update the fungible sensor
properties (OperationalStatus, CurrentState, UnitModifier, CurrentReading)
from a freshly queried wobj.  The element indices past CurrentState are
offset by `possible_states_count - 1`, and CurrentState is re-copied only
when it changed. -/
def update_numeric_sensor_from_wobj (ns : NumericSensor) (wobj : Wobj) : NumericSensor :=
  let elems := wobjElements wobj
  let ns1 := { ns with operational_status := toU32 (intVal (elemAt elems 4)) }
  let s := strVal (elemAt elems 5)
  let ns2 := if s ≠ ns1.current_state then { ns1 with current_state := hp_wmi_strdup s }
    else ns1
  let offset := ns.possible_states_count - 1
  { ns2 with
    unit_modifier := toS32 (intVal (elemAt elems (8 + offset))),
    current_reading := toU32 (intVal (elemAt elems (9 + offset))) }

/-- `struct hp_wmi_info` - cached live view of one sensor.  `type` is the
`enum hwmon_sensor_types` code (`hwmon_temp` = 1, `hwmon_in` = 2,
`hwmon_curr` = 3, `hwmon_fan` = 7). -/
structure InfoState where
  nsensor : NumericSensor
  instance_id : Nat
  is_active : Bool
  type : Nat
  cached_val : Int
  lo_val : Int
  hi_val : Int
  last_updated : Nat
deriving DecidableEq

/-- `interpret_info` - rescale the cached value, fold it into the
historical minimum and maximum for non-fan sensors, and stamp
`last_updated` with the current jiffies. -/
def interpret_info (now : Nat) (info : InfoState) : InfoState :=
  let v := scale_numeric_sensor info.nsensor
  let info1 := { info with cached_val := v }
  let info2 :=
    if info1.type ≠ 7 then
      { info1 with lo_val := min info1.lo_val v, hi_val := max info1.hi_val v }
    else info1
  { info2 with last_updated := now }

/-- `hp_wmi_update_info` - freshness-gated poll of one sensor.  `now` is
the current jiffies value and `q` the result the transport would return
for this instance (`none` for a failed query).  The result is the new info
struct, the number of firmware queries issued, and the C return value
(0 or `-EIO`).  The gate is `time_after(jiffies, last_updated + HZ)`. -/
def hp_wmi_update_info (now : Nat) (q : Option Wobj) (info : InfoState) :
    InfoState × Nat × Int :=
  if info.last_updated + HZ < now then
    match q with
    | none => (info, 1, -5)
    | some wobj =>
      (interpret_info now { info with nsensor := update_numeric_sensor_from_wobj info.nsensor wobj },
        1, 0)
  else (info, 0, 0)

/-- Outcome of one run of the background refresh task: the update interval
it leaves behind and whether it rescheduled itself. -/
structure RefreshOutcome where
  update_interval : Int
  rescheduled : Bool
deriving DecidableEq

/-- `hp_wmi_sensors_refresh_task` - one run of the background refresh task
over the sensor array (each entry paired with the query result the
transport would produce for it).  Inactive sensors are skipped.  As in the
C source, when `hp_wmi_update_info` returns 0 for an active sensor
(`if (!err)`), the task zeroes the update interval and returns without
rescheduling; otherwise it continues, and reschedules itself after the
configured interval once the loop completes. -/
def hp_wmi_sensors_refresh_task (now : Nat) (update_interval : Int) :
    List (InfoState × Option Wobj) → RefreshOutcome
  | [] => { update_interval := update_interval, rescheduled := true }
  | (info, q) :: rest =>
    if ¬ info.is_active then hp_wmi_sensors_refresh_task now update_interval rest
    else if (hp_wmi_update_info now q info).2.2 = 0 then
      { update_interval := 0, rescheduled := false }
    else hp_wmi_sensors_refresh_task now update_interval rest

/-- The discovery loop of `hp_wmi_sensors_init`: walk the per-instance
query results in order; a failed query (`none`) ends discovery, a record
that fails `populate_numeric_sensor_from_wobj` aborts initialization
(`none` result, the error return), a faulty or unclassifiable record is
skipped, and every other record is appended to the ordered active list
from which the per-category hwmon channels are later built.  The result is
`some (count, active)` with `count` the number of instances seen. -/
def discover : List (Option Wobj) → Nat → List (Nat × NumericSensor) →
    Option (Nat × List (Nat × NumericSensor))
  | [], i, acc => some (i, acc)
  | none :: _, i, acc => some (i, acc)
  | some w :: rest, i, acc =>
    match populate_numeric_sensor_from_wobj w with
    | none => none
    | some ns =>
      if numeric_sensor_has_fault ns then discover rest (i + 1) acc
      else if classify_numeric_sensor ns < 0 then discover rest (i + 1) acc
      else discover rest (i + 1) (acc ++ [(i, ns)])

/-! ### Concrete fixtures used by witnesses and counterexamples -/

/-- A well-formed Temperature/Celsius record: status OK (2), one possible
state, unit modifier -3 (the u32 4294967293), reading 25. -/
def wobjOK : Wobj :=
  .package [.str "CPU0", .str "Temp", .int 2, .str "", .int 2,
    .str "OK", .str "OK", .int 2, .int 4294967293, .int 25]

/-- The sensor decoded from `wobjOK`. -/
def nsOK : NumericSensor :=
  { name := "CPU0", description := "Temp", sensor_type := 2, other_sensor_type := "",
    operational_status := 2, current_state := "OK", possible_states := ["OK"],
    base_units := 2, unit_modifier := -3, current_reading := 25,
    possible_states_count := 1 }

/-- A schema-valid record whose SensorType value is 13 (one past the
largest vendor code, Air Flow = 12). -/
def wobj13 : Wobj :=
  .package [.str "a", .str "b", .int 13, .str "c", .int 2,
    .str "d", .str "e", .int 2, .int 0, .int 100]

/-! ### Helper lemmas -/

/-- The lookahead count of a block of strings followed by an all-integer
or empty tail. -/
theorem countLeadingStrings_map_append (l : List String) (t : List AcpiElem) :
    countLeadingStrings (l.map AcpiElem.str ++ t) = l.length + countLeadingStrings t := by
  induction l with
  | nil => simp
  | cons a l ih => simp [countLeadingStrings, ih]; omega

/-- A list whose elements are all integers has no leading strings. -/
theorem countLeadingStrings_eq_zero (t : List AcpiElem)
    (h : ∀ x ∈ t, ∃ v, x = AcpiElem.int v) : countLeadingStrings t = 0 := by
  cases t with
  | nil => rfl
  | cons a r =>
    obtain ⟨v, rfl⟩ := h a (by simp)
    rfl

/-- The post-lookahead walk can never succeed with a zero state count. -/
theorem check_walk2_count_zero (es : List AcpiElem) (prop : Nat) :
    check_walk2 es prop 0 = none := by
  induction es generalizing prop with
  | nil => simp [check_walk2]
  | cons e rest ih =>
    unfold check_walk2
    split_ifs <;> simp [ih]

/-! ### Claim theorems -/

/-- Claim C1: a structured aggregate whose fields are Name(String),
Description(String), SensorType(Integer), OtherSensorType(String),
OperationalStatus(Integer), CurrentState(String), then N consecutive
String PossibleStates entries with N >= 1, then BaseUnits(Integer),
UnitModifier(Integer), CurrentReading(Integer), within the maximum
property count, passes `check_wobj` with reported count exactly N; a
record whose lookahead yields zero String entries is rejected, and a
record with fewer than three all-integer trailing fields after the
lookahead is rejected. -/
theorem check_wobj_valid_records :
    (∀ (a b d f : String) (c e : Nat) (states : List String) (g h k : Nat),
       states ≠ [] → 9 + states.length ≤ 32 →
       check_wobj (.package ([.str a, .str b, .int c, .str d, .int e, .str f]
         ++ states.map AcpiElem.str ++ [.int g, .int h, .int k])) = some states.length)
    ∧ (∀ (a b d f : String) (c e : Nat) (rest : List AcpiElem),
       countLeadingStrings rest = 0 →
       check_wobj (.package ([.str a, .str b, .int c, .str d, .int e, .str f] ++ rest))
         = none)
    ∧ (∀ (a b d f : String) (c e : Nat) (states : List String)
         (trailing : List AcpiElem),
       (∀ x ∈ trailing, ∃ v, x = AcpiElem.int v) → trailing.length < 3 →
       check_wobj (.package ([.str a, .str b, .int c, .str d, .int e, .str f]
         ++ states.map AcpiElem.str ++ trailing)) = none) := by
  refine ⟨?_, ?_, ?_⟩
  · intro a b d f c e states g h k hne hlen
    have hnz : states.length ≠ 0 := by
      intro h0
      exact hne (List.length_eq_zero.mp h0)
    have hl : ¬ 32 < ([AcpiElem.str a, AcpiElem.str b, AcpiElem.int c, AcpiElem.str d,
        AcpiElem.int e, AcpiElem.str f]
        ++ states.map AcpiElem.str
        ++ [AcpiElem.int g, AcpiElem.int h, AcpiElem.int k]).length := by
      simp
      omega
    have hcls : countLeadingStrings (states.map AcpiElem.str
        ++ [AcpiElem.int g, AcpiElem.int h, AcpiElem.int k]) = states.length := by
      rw [countLeadingStrings_map_append]
      rfl
    have hdrop : (states.map AcpiElem.str
        ++ [AcpiElem.int g, AcpiElem.int h, AcpiElem.int k]).drop
        states.length = [AcpiElem.int g, AcpiElem.int h, AcpiElem.int k] := by
      simp
    simp [check_wobj, hl, check_walk1, elemMatches, hcls, hdrop, check_walk2, hnz]
    omega
  · intro a b d f c e rest hz
    simp only [check_wobj]
    split_ifs with hl
    · rfl
    · simp [check_walk1, elemMatches, hz, check_walk2_count_zero]
  · intro a b d f c e states trailing hint hlen
    simp only [check_wobj]
    split_ifs with hl
    · rfl
    · have hcls : countLeadingStrings (states.map AcpiElem.str ++ trailing)
          = states.length := by
        rw [countLeadingStrings_map_append, countLeadingStrings_eq_zero trailing hint]
        omega
      have hdrop : (states.map AcpiElem.str ++ trailing).drop states.length
          = trailing := by
        simp
      simp only [check_walk1, elemMatches]
      match trailing, hlen with
      | [], _ =>
        have h1 : countLeadingStrings (List.map AcpiElem.str states) = states.length := by
          have h0 := countLeadingStrings_map_append states []
          simp only [List.append_nil] at h0
          simp [h0, countLeadingStrings]
        have h2 : List.drop states.length (List.map AcpiElem.str states) = [] := by
          simp
        simp [h1, h2, check_walk2]
      | [x], _ =>
        obtain ⟨v, rfl⟩ := hint x (by simp)
        simp [hcls, hdrop, check_walk2, elemMatches]
      | [x, y], _ =>
        obtain ⟨v, rfl⟩ := hint x (by simp)
        obtain ⟨w, rfl⟩ := hint y (by simp)
        simp [hcls, hdrop, check_walk2, elemMatches]

/-- Witness for C1: a record with exactly one possible state is accepted
with reported count 1. -/
theorem check_wobj_valid_records_witness :
    check_wobj (.package ([.str "CPU0", .str "Temp", .int 2, .str "", .int 2, .str "OK"]
      ++ (["OK"] : List String).map AcpiElem.str ++ [.int 2, .int 4294967293, .int 25]))
      = some 1 :=
  check_wobj_valid_records.1 "CPU0" "Temp" "" "OK" 2 2 ["OK"] 2 4294967293 25
    (by decide) (by decide)

/-- Claim C6: `classify_numeric_sensor` returns Temperature (2) exactly for
sensor type 2 with base units Celsius (2), Fahrenheit (3) or Kelvin (4);
Voltage (3) exactly for (3, Volts = 5); Current (4) exactly for
(4, Amps = 6); Air Flow (12, the fan category) exactly for (12, RPM = 19);
and a negative value for every other pair. -/
theorem classify_numeric_sensor_table (ns : NumericSensor) :
    (classify_numeric_sensor ns = 2
      ↔ ns.sensor_type = 2 ∧ (ns.base_units = 2 ∨ ns.base_units = 3 ∨ ns.base_units = 4))
    ∧ (classify_numeric_sensor ns = 3 ↔ ns.sensor_type = 3 ∧ ns.base_units = 5)
    ∧ (classify_numeric_sensor ns = 4 ↔ ns.sensor_type = 4 ∧ ns.base_units = 6)
    ∧ (classify_numeric_sensor ns = 12 ↔ ns.sensor_type = 12 ∧ ns.base_units = 19)
    ∧ (¬((ns.sensor_type = 2 ∧ (ns.base_units = 2 ∨ ns.base_units = 3 ∨ ns.base_units = 4))
        ∨ (ns.sensor_type = 3 ∧ ns.base_units = 5)
        ∨ (ns.sensor_type = 4 ∧ ns.base_units = 6)
        ∨ (ns.sensor_type = 12 ∧ ns.base_units = 19)) →
      classify_numeric_sensor ns < 0) := by
  unfold classify_numeric_sensor
  split_ifs <;> simp_all

/-- Witness for C6: the pair (Temperature, Volts) from the spec's own
example is rejected with a negative value. -/
theorem classify_numeric_sensor_table_witness :
    classify_numeric_sensor { nsOK with base_units := 5 } < 0 :=
  (classify_numeric_sensor_table { nsOK with base_units := 5 }).2.2.2.2 (by decide)

/-- Claim C9: the fungible-field refresh `update_numeric_sensor_from_wobj`
leaves name, description, sensor type, other sensor type, base units, the
possible-states list and its count unchanged on every input. -/
theorem update_preserves_immutable_fields (ns : NumericSensor) (wobj : Wobj) :
    (update_numeric_sensor_from_wobj ns wobj).name = ns.name
    ∧ (update_numeric_sensor_from_wobj ns wobj).description = ns.description
    ∧ (update_numeric_sensor_from_wobj ns wobj).sensor_type = ns.sensor_type
    ∧ (update_numeric_sensor_from_wobj ns wobj).other_sensor_type = ns.other_sensor_type
    ∧ (update_numeric_sensor_from_wobj ns wobj).base_units = ns.base_units
    ∧ (update_numeric_sensor_from_wobj ns wobj).possible_states = ns.possible_states
    ∧ (update_numeric_sensor_from_wobj ns wobj).possible_states_count
        = ns.possible_states_count := by
  by_cases hc : strVal (elemAt (wobjElements wobj) 5) ≠ ns.current_state <;>
    simp [update_numeric_sensor_from_wobj, hc]

/-- Claim C10: a record that passes `check_wobj` but whose decoded
SensorType value (the firmware integer truncated to u32) exceeds the Air
Flow code 12 is rejected by `populate_numeric_sensor_from_wobj`. -/
theorem populate_rejects_out_of_range_sensor_type (elems : List AcpiElem) (n v : Nat)
    (hchk : check_wobj (.package elems) = some n)
    (he : elems[2]? = some (.int v)) (hv : 12 < v % 4294967296) :
    populate_numeric_sensor_from_wobj (.package elems) = none := by
  match elems with
  | [] => simp at he
  | [e0] => simp at he
  | [e0, e1] => simp at he
  | e0 :: e1 :: e2 :: rest =>
    have he2 : e2 = .int v := by simpa using he
    subst he2
    simp only [populate_numeric_sensor_from_wobj, hchk, wobjElements]
    cases rest <;> simp [popLoop, intVal, toU32, hv]

/-- Witness for C10: `wobj13` is schema-valid but its SensorType value 13
makes the decoder fail. -/
theorem populate_rejects_out_of_range_sensor_type_witness :
    populate_numeric_sensor_from_wobj wobj13 = none :=
  populate_rejects_out_of_range_sensor_type
    [.str "a", .str "b", .int 13, .str "c", .int 2,
      .str "d", .str "e", .int 2, .int 0, .int 100]
    1 13 (by decide) (by decide) (by decide)

/-- An active cached sensor entry for `nsOK`, last updated at jiffy 0. -/
def infoA : InfoState :=
  { nsensor := nsOK, instance_id := 0, is_active := true, type := 1,
    cached_val := 25, lo_val := 25, hi_val := 25, last_updated := 0 }

/-- A malformed record: its first element is not a string. -/
def wobjBad : Wobj := .package [.int 0]

/-- A record identical in shape to `wobjOK` but reporting operational
status 3 (Degraded) with a nonzero reading. -/
def wobjC7 : Wobj :=
  .package [.str "T", .str "D", .int 2, .str "x", .int 3,
    .str "S", .str "S1", .int 2, .int 4294967293, .int 100]

/-- The sensor decoded from `wobjC7`. -/
def nsC7 : NumericSensor :=
  { name := "T", description := "D", sensor_type := 2, other_sensor_type := "",
    operational_status := 3, current_state := "S", possible_states := ["S1"],
    base_units := 2, unit_modifier := -3, current_reading := 100,
    possible_states_count := 1 }

/-- Claim C4: a poll while at most `HZ` jiffies (the 1-second TTL) have
passed since `last_updated` issues no query, leaves the cached info struct
unchanged and returns 0 with the cached value intact; a poll strictly
after the TTL issues exactly one query; and a stale poll followed by a
second poll within the TTL of the first issues exactly one query in
total. -/
theorem hp_wmi_update_info_ttl :
    (∀ (now : Nat) (q : Option Wobj) (info : InfoState),
       now ≤ info.last_updated + HZ → hp_wmi_update_info now q info = (info, 0, 0))
    ∧ (∀ (now : Nat) (q : Option Wobj) (info : InfoState),
       info.last_updated + HZ < now → (hp_wmi_update_info now q info).2.1 = 1)
    ∧ (∀ (t0 t1 : Nat) (w : Wobj) (q2 : Option Wobj) (info : InfoState),
       info.last_updated + HZ < t0 → t1 ≤ t0 + HZ →
       (hp_wmi_update_info t0 (some w) info).2.1
         + (hp_wmi_update_info t1 q2 (hp_wmi_update_info t0 (some w) info).1).2.1 = 1) := by
  refine ⟨?_, ?_, ?_⟩
  · intro now q info hfresh
    have : ¬ info.last_updated + HZ < now := by omega
    simp [hp_wmi_update_info, this]
  · intro now q info hstale
    cases q <;> simp [hp_wmi_update_info, hstale]
  · intro t0 t1 w q2 info hstale hwin
    have hun : hp_wmi_update_info t0 (some w) info
        = (interpret_info t0
            { info with nsensor := update_numeric_sensor_from_wobj info.nsensor w },
           1, 0) := by
      simp [hp_wmi_update_info, hstale]
    rw [hun]
    have hlast : (interpret_info t0
        { info with nsensor := update_numeric_sensor_from_wobj info.nsensor w }).last_updated
        = t0 := by
      simp [interpret_info]
    have hss : ¬ (interpret_info t0
        { info with nsensor := update_numeric_sensor_from_wobj info.nsensor w }).last_updated
        + HZ < t1 := by
      rw [hlast]
      omega
    simp [hp_wmi_update_info, hss]

/-- Witness for C4: with `infoA` stale at jiffy 2000, two polls at jiffies
2000 and 2500 issue one query in total. -/
theorem hp_wmi_update_info_ttl_witness :
    (hp_wmi_update_info 2000 (some wobjOK) infoA).2.1
      + (hp_wmi_update_info 2500 none (hp_wmi_update_info 2000 (some wobjOK) infoA).1).2.1
      = 1 :=
  hp_wmi_update_info_ttl.2.2 2000 2500 wobjOK none infoA (by decide) (by decide)

/-- Claim C3 (code bug): evaluating the background refresh task shows the
inverted error test `if (!err)` in the source.  With one active stale
sensor whose firmware query succeeds, the task zeroes its update interval
and does not reschedule; with the same sensor and a failed (transport
error) query, it keeps the interval and reschedules - the exact opposite
of the documented fail-safe, and the accompanying `dev_err` message would
print "Error 0" on the success path. -/
theorem refresh_task_disables_on_success :
    hp_wmi_sensors_refresh_task 2000 30000 [(infoA, some wobjOK)]
      = { update_interval := 0, rescheduled := false }
    ∧ hp_wmi_sensors_refresh_task 2000 30000 [(infoA, none)]
      = { update_interval := 30000, rescheduled := true } := by
  decide

/-- Claim C8 (amended): a record that fails
`populate_numeric_sensor_from_wobj` makes discovery fail fatally at any
instance index, not only at instance 0 - every earlier instance having
decoded successfully, the error return aborts `hp_wmi_sensors_init`
entirely; what stops discovery while keeping earlier sensors is an absent
query result. -/
theorem discovery_malformed_fatal_and_absent_stops :
    (∀ (pre : List Wobj) (w : Wobj) (rest : List (Option Wobj)) (i0 : Nat)
       (acc : List (Nat × NumericSensor)),
       (∀ w2 ∈ pre, populate_numeric_sensor_from_wobj w2 ≠ none) →
       populate_numeric_sensor_from_wobj w = none →
       discover (pre.map some ++ some w :: rest) i0 acc = none)
    ∧ (∀ (qs rest : List (Option Wobj)) (i0 : Nat)
       (acc : List (Nat × NumericSensor)),
       discover (qs ++ none :: rest) i0 acc = discover qs i0 acc) := by
  constructor
  · intro pre
    induction pre with
    | nil =>
      intro w rest i0 acc _ hbad
      simp [discover, hbad]
    | cons w2 pre ih =>
      intro w rest i0 acc hpre hbad
      have h2 := hpre w2 (by simp)
      cases hp : populate_numeric_sensor_from_wobj w2 with
      | none => exact absurd hp h2
      | some ns =>
        simp only [List.map_cons, List.cons_append, discover, hp]
        split_ifs <;>
          exact ih w rest (i0 + 1) _ (fun x hx => hpre x (List.mem_cons_of_mem _ hx)) hbad
  · intro qs
    induction qs with
    | nil =>
      intro rest i0 acc
      simp [discover]
    | cons q qs ih =>
      intro rest i0 acc
      cases q with
      | none => simp [discover]
      | some w =>
        simp only [List.cons_append, discover]
        cases populate_numeric_sensor_from_wobj w with
        | none => rfl
        | some ns =>
          dsimp only
          split_ifs <;> exact ih rest (i0 + 1) _

set_option maxRecDepth 4000 in
/-- Witness for C8 (amended): a malformed record at instance 1, after a
valid instance 0, still aborts discovery. -/
theorem discovery_malformed_fatal_witness :
    discover ([wobjOK].map some ++ some wobjBad :: []) 0 [] = none :=
  discovery_malformed_fatal_and_absent_stops.1 [wobjOK] wobjBad [] 0 []
    (by decide) (by decide)

set_option maxRecDepth 4000 in
/-- Counterexample for C8 as stated: `wobjBad` is malformed, instance 0
alone discovers one sensor, yet running discovery over instance 0 followed
by the malformed instance 1 yields a fatal failure instead of keeping the
instance-0 sensor. -/
theorem malformed_after_first_fatal_counterexample :
    populate_numeric_sensor_from_wobj wobjBad = none
    ∧ discover [some wobjOK] 0 [] = some (1, [(0, nsOK)])
    ∧ discover [some wobjOK, some wobjBad] 0 [] = none := by
  decide

/-- Sensors already accumulated are retained in the discovery result. -/
theorem discover_mem_acc (qs : List (Option Wobj)) (i0 : Nat)
    (acc : List (Nat × NumericSensor)) (res : Nat × List (Nat × NumericSensor))
    (hres : discover qs i0 acc = some res) : ∀ p ∈ acc, p ∈ res.2 := by
  induction qs generalizing i0 acc with
  | nil =>
    intro p hp
    simp only [discover, Option.some.injEq] at hres
    rw [← hres]
    exact hp
  | cons q rest ih =>
    cases q with
    | none =>
      intro p hp
      simp only [discover, Option.some.injEq] at hres
      rw [← hres]
      exact hp
    | some w =>
      cases hp0 : populate_numeric_sensor_from_wobj w with
      | none => simp [discover, hp0] at hres
      | some ns0 =>
        simp only [discover, hp0] at hres
        split_ifs at hres
        · exact ih _ _ hres
        · exact ih _ _ hres
        · intro p hp
          exact ih _ _ hres p (by simp [hp])

/-- Claim C7 (amended): the discovery loop excludes a decoded sensor from
the active set exactly when `numeric_sensor_has_fault` holds (operational
status not OK, or zero reading) or classification fails.  Soundness: every
sensor in the active set has status OK (2), a nonzero reading and a
supported classification.  Completeness: whenever discovery succeeds, a
record at instance index j whose query result is present, is preceded by
present query results only, decodes, is not faulty and classifies is
placed in the active set at index j.  No Contact (12) sensors are excluded
as one case of the broader fault filter, and the decision is made in the
discovery loop itself. -/
theorem active_sensors_ok_and_classified :
    (∀ (qs : List (Option Wobj)) (i0 : Nat) (acc : List (Nat × NumericSensor))
       (res : Nat × List (Nat × NumericSensor)),
       discover qs i0 acc = some res →
       ∀ p ∈ res.2, p ∈ acc ∨ (p.2.operational_status = 2 ∧ p.2.current_reading ≠ 0
         ∧ 0 ≤ classify_numeric_sensor p.2))
    ∧ (∀ (qs : List (Option Wobj)) (i0 : Nat) (acc : List (Nat × NumericSensor))
       (res : Nat × List (Nat × NumericSensor)) (j : Nat) (w : Wobj) (ns : NumericSensor),
       discover qs i0 acc = some res →
       qs[j]? = some (some w) →
       (∀ k, k < j → ∃ wk, qs[k]? = some (some wk)) →
       populate_numeric_sensor_from_wobj w = some ns →
       ¬ numeric_sensor_has_fault ns →
       0 ≤ classify_numeric_sensor ns →
       (i0 + j, ns) ∈ res.2) := by
  constructor
  · intro qs i0 acc res hres
    induction qs generalizing i0 acc with
    | nil =>
      intro p hp
      simp only [discover, Option.some.injEq] at hres
      left
      rw [← hres] at hp
      exact hp
    | cons q rest ih =>
      cases q with
      | none =>
        intro p hp
        simp only [discover, Option.some.injEq] at hres
        left
        rw [← hres] at hp
        exact hp
      | some w =>
        cases hp2 : populate_numeric_sensor_from_wobj w with
        | none => simp [discover, hp2] at hres
        | some ns =>
          simp only [discover, hp2] at hres
          by_cases hf : numeric_sensor_has_fault ns
          · rw [if_pos hf] at hres
            exact ih _ _ hres
          · rw [if_neg hf] at hres
            by_cases hc : classify_numeric_sensor ns < 0
            · rw [if_pos hc] at hres
              exact ih _ _ hres
            · rw [if_neg hc] at hres
              intro p hp
              rcases ih _ _ hres p hp with hin | hgood
              · rcases List.mem_append.mp hin with h | h
                · left
                  exact h
                · right
                  simp only [List.mem_singleton] at h
                  subst h
                  have hsf : ns.operational_status = 2 ∧ ns.current_reading ≠ 0 := by
                    simpa [numeric_sensor_has_fault, not_or] using hf
                  exact ⟨hsf.1, hsf.2, by dsimp only; omega⟩
              · right
                exact hgood
  · intro qs i0 acc res j w ns hres hj hpre hp hf hc
    induction qs generalizing j i0 acc with
    | nil => simp at hj
    | cons q rest ih =>
      cases q with
      | none =>
        cases j with
        | zero => simp at hj
        | succ k =>
          obtain ⟨wk, hwk⟩ := hpre 0 (Nat.succ_pos k)
          simp at hwk
      | some w0 =>
        cases j with
        | zero =>
          have hw : w0 = w := by simpa using hj
          subst hw
          simp only [discover, hp] at hres
          rw [if_neg hf] at hres
          rw [if_neg (by omega : ¬ classify_numeric_sensor ns < 0)] at hres
          exact discover_mem_acc rest (i0 + 1) _ res hres (i0 + 0, ns) (by simp)
        | succ k =>
          cases hp0 : populate_numeric_sensor_from_wobj w0 with
          | none => simp [discover, hp0] at hres
          | some ns0 =>
            simp only [discover, hp0] at hres
            have hj2 : rest[k]? = some (some w) := by simpa using hj
            have hpre2 : ∀ m, m < k → ∃ wm, rest[m]? = some (some wm) := by
              intro m hm
              obtain ⟨wm, hwm⟩ := hpre (m + 1) (by omega)
              exact ⟨wm, by simpa using hwm⟩
            have hidx : i0 + (k + 1) = (i0 + 1) + k := by omega
            rw [hidx]
            split_ifs at hres
            · exact ih _ _ _ hres hj2 hpre2
            · exact ih _ _ _ hres hj2 hpre2
            · exact ih _ _ _ hres hj2 hpre2

set_option maxRecDepth 4000 in
/-- Witness for C7 (amended): the non-faulty, classifiable sensor decoded
from `wobjOK` at instance 0 is placed in the active set. -/
theorem active_sensors_ok_and_classified_witness :
    ((0 : Nat) + 0, nsOK) ∈ ((1, [(0, nsOK)]) : Nat × List (Nat × NumericSensor)).2 :=
  active_sensors_ok_and_classified.2 [some wobjOK] 0 [] (1, [(0, nsOK)]) 0 wobjOK nsOK
    (by decide) (by decide) (fun k hk => absurd hk (Nat.not_lt_zero k))
    (by decide) (by decide) (by decide)
set_option maxRecDepth 4000 in
/-- Counterexample for C7 as stated: `wobjC7` decodes to a sensor with
operational status 3 (Degraded, not the No Contact code 12) that
classifies successfully, yet discovery excludes it from the active set. -/
theorem discovery_excludes_degraded_counterexample :
    populate_numeric_sensor_from_wobj wobjC7 = some nsC7
    ∧ nsC7.operational_status = 3
    ∧ classify_numeric_sensor nsC7 = 2
    ∧ discover [some wobjC7] 0 [] = some (1, []) := by
  decide

/-- `DIV_ROUND_CLOSEST` by 10, specialized: the divisor is positive, so the
macro's sign test reduces to the sign of the dividend. -/
theorem div_round_closest_ten (v : Int) :
    div_round_closest v 10 = if 0 < v then Int.tdiv (v + 5) 10 else Int.tdiv (v - 5) 10 := by
  unfold div_round_closest
  rw [show Int.tdiv 10 2 = 5 from rfl]
  norm_num

/-- The decade-shrinking loop started on a u32-sized nonnegative value
stays within `[0, 2^32]`, and every intermediate of its checked version is
representable. -/
theorem scale_loop_down_chk_eq (n : Nat) :
    ∀ val : Int, 0 ≤ val → val ≤ 4294967296 →
      scale_loop_down_chk val n = some (scale_loop_down val n)
      ∧ 0 ≤ scale_loop_down val n ∧ scale_loop_down val n ≤ 4294967296 := by
  induction n with
  | zero =>
    intro val h0 h1
    exact ⟨rfl, h0, h1⟩
  | succ n ih =>
    intro val h0 h1
    by_cases hv : 0 < val
    · have hchk : chk (val + 5) = some (val + 5) := by
        simp only [chk, LONG_MIN, LONG_MAX]
        rw [if_pos (by omega)]
      have hd : div_round_closest val 10 = Int.tdiv (val + 5) 10 := by
        rw [div_round_closest_ten, if_pos hv]
      have ht0 : 0 ≤ Int.tdiv (val + 5) 10 := Int.tdiv_nonneg (by omega) (by omega)
      have ht1 : Int.tdiv (val + 5) 10 ≤ 4294967296 := by
        rw [Int.tdiv_eq_ediv (by omega) (by omega)]
        omega
      obtain ⟨e1, e2, e3⟩ := ih (Int.tdiv (val + 5) 10) ht0 ht1
      refine ⟨?_, ?_, ?_⟩
      · simp only [scale_loop_down_chk, scale_loop_down, hd, if_pos hv, hchk]
        exact e1
      · simp only [scale_loop_down, hd]
        exact e2
      · simp only [scale_loop_down, hd]
        exact e3
    · have hv0 : val = 0 := by omega
      subst hv0
      have hchk : chk (0 - 5) = some (-5) := by
        simp only [chk, LONG_MIN, LONG_MAX]
        rw [if_pos (by omega)]
        norm_num
      have hd : div_round_closest 0 10 = Int.tdiv (0 - 5) 10 := by
        rw [div_round_closest_ten, if_neg (by omega)]
      have htd : Int.tdiv (0 - 5) 10 = 0 := by decide
      obtain ⟨e1, e2, e3⟩ := ih 0 le_rfl (by norm_num)
      refine ⟨?_, ?_, ?_⟩
      · simp only [scale_loop_down_chk, scale_loop_down, hd, hchk, htd]
        rw [if_neg (by omega)]
        simp only [htd]
        exact e1
      · simp only [scale_loop_down, hd, htd]
        exact e2
      · simp only [scale_loop_down, hd, htd]
        exact e3

/-- The decade-growing loop started within `[0, LONG_MAX]` stays there,
its checked version never overflows, and the result is either the exact
product by a power of ten or the saturated `LONG_MAX`. -/
theorem scale_loop_up_chk_eq (n : Nat) :
    ∀ val : Int, 0 ≤ val → val ≤ LONG_MAX →
      scale_loop_up_chk val n = some (scale_loop_up val n)
      ∧ 0 ≤ scale_loop_up val n ∧ scale_loop_up val n ≤ LONG_MAX
      ∧ (scale_loop_up val n = val * 10 ^ n ∨ scale_loop_up val n = LONG_MAX) := by
  induction n with
  | zero =>
    intro val h0 h1
    exact ⟨rfl, h0, h1, Or.inl (by simp [scale_loop_up])⟩
  | succ n ih =>
    intro val h0 h1
    by_cases hs : Int.tdiv LONG_MAX 10 < val
    · refine ⟨?_, ?_, ?_, Or.inr ?_⟩ <;>
        simp only [scale_loop_up_chk, scale_loop_up, if_pos hs] <;>
        simp [LONG_MAX]
    · have h10 : Int.tdiv LONG_MAX 10 = 922337203685477580 := by decide
      rw [h10] at hs
      have hb : val * 10 ≤ LONG_MAX := by
        simp only [LONG_MAX]
        omega
      have hb0 : 0 ≤ val * 10 := by omega
      have hchk : chk (val * 10) = some (val * 10) := by
        simp only [chk, LONG_MIN, LONG_MAX]
        simp only [LONG_MAX] at hb
        rw [if_pos (by omega)]
      obtain ⟨e1, e2, e3, e4⟩ := ih (val * 10) hb0 hb
      have hsx : ¬ Int.tdiv LONG_MAX 10 < val := by
        rw [h10]
        omega
      refine ⟨?_, ?_, ?_, ?_⟩
      · simp only [scale_loop_up_chk, scale_loop_up, if_neg hsx, hchk]
        exact e1
      · simp only [scale_loop_up, if_neg hsx]
        exact e2
      · simp only [scale_loop_up, if_neg hsx]
        exact e3
      · simp only [scale_loop_up, if_neg hsx]
        rcases e4 with h | h
        · left
          rw [h, pow_succ]
          ring
        · right
          exact h

/-- The temperature conversion tail never overflows for an input within
`[0, LONG_MAX]`: its checked version always succeeds. -/
theorem temp_adjust_chk_eq (st bu : Nat) (val : Int) (h0 : 0 ≤ val)
    (h1 : val ≤ LONG_MAX) : temp_adjust_chk st bu val = some (temp_adjust st bu val) := by
  simp only [LONG_MAX] at h1
  by_cases hst : st = 2
  · subst hst
    by_cases hbu : bu = 3
    · subst hbu
      have hc1 : chk (val - 32 * 1000) = some (val - 32 * 1000) := by
        simp only [chk, LONG_MIN, LONG_MAX]
        rw [if_pos (by omega)]
      simp only [temp_adjust_chk, temp_adjust, reduceIte, hc1]
      by_cases hle : val - 32 * 1000 ≤ Int.tdiv LONG_MAX 5
      · have hc2 : chk ((val - 32 * 1000) * 5) = some ((val - 32 * 1000) * 5) := by
          have h5 : Int.tdiv LONG_MAX 5 = 1844674407370955161 := by decide
          rw [h5] at hle
          simp only [chk, LONG_MIN, LONG_MAX]
          rw [if_pos (by omega)]
        rw [if_pos hle, if_pos hle, hc2]
      · have h5 : Int.tdiv LONG_MAX 5 = 1844674407370955161 := by decide
        have hle2 := hle
        rw [h5] at hle2
        have hq : Int.tdiv (val - 32 * 1000) 9 = (val - 32 * 1000) / 9 :=
          Int.tdiv_eq_ediv (by omega) (by omega)
        have hc3 : chk (Int.tdiv (val - 32 * 1000) 9 * 5)
            = some (Int.tdiv (val - 32 * 1000) 9 * 5) := by
          simp only [chk, LONG_MIN, LONG_MAX, hq]
          rw [if_pos (by omega)]
        rw [if_neg hle, if_neg hle, hc3]
    · by_cases hbu4 : bu = 4
      · subst hbu4
        have hc : chk (val - 273150) = some (val - 273150) := by
          simp only [chk, LONG_MIN, LONG_MAX]
          rw [if_pos (by omega)]
        simp [temp_adjust_chk, temp_adjust, hc]
      · simp [temp_adjust_chk, temp_adjust, hbu, hbu4]
  · simp [temp_adjust_chk, temp_adjust, hst]

/-- Outside the Fahrenheit and Kelvin temperature cases the conversion
tail is the identity. -/
theorem temp_adjust_id (st bu : Nat) (val : Int)
    (h : ¬(st = 2 ∧ (bu = 3 ∨ bu = 4))) : temp_adjust st bu val = val := by
  unfold temp_adjust
  split_ifs with h1 h2 h3
  · exact absurd ⟨h1, Or.inl h2⟩ h
  · exact absurd ⟨h1, Or.inr h3⟩ h
  · rfl
  · rfl

/-- Outside the Fahrenheit and Kelvin cases the exact scaled value is just
the unbounded decade-scaled value. -/
theorem scale_exact_id (ns : NumericSensor)
    (h : ¬(ns.sensor_type = 2 ∧ (ns.base_units = 3 ∨ ns.base_units = 4))) :
    scale_exact ns = decade_unbounded (ns.current_reading : Int) ns.unit_modifier
      (targetModifier ns.sensor_type) := by
  unfold scale_exact
  split_ifs with h1 h2 h3
  · exact absurd ⟨h1, Or.inl h2⟩ h
  · exact absurd ⟨h1, Or.inr h3⟩ h
  · rfl
  · rfl

/-- Claim C2 (amended): for every u32 reading and any modifier,
`scale_numeric_sensor` never wraps around or traps - every intermediate of
the computation stays within the representable `long` range (the checked
evaluator succeeds); the decade-scaling phase yields either the exact
decade-scaled value or the saturated `LONG_MAX`; and outside the
Fahrenheit/Kelvin temperature conversions the final result is either the
mathematically correct scaled value or `LONG_MAX`.  (For Fahrenheit and
Kelvin the conversion is applied after saturation, so the result can
differ from both - see the counterexample.) -/
theorem scale_no_wraparound (ns : NumericSensor)
    (hr : ns.current_reading < 4294967296) :
    scale_numeric_sensor_chk ns = some (scale_numeric_sensor ns)
    ∧ (decade_part ns
        = decade_unbounded (ns.current_reading : Int) ns.unit_modifier
            (targetModifier ns.sensor_type)
      ∨ decade_part ns = LONG_MAX)
    ∧ (¬(ns.sensor_type = 2 ∧ (ns.base_units = 3 ∨ ns.base_units = 4)) →
        scale_numeric_sensor ns = scale_exact ns ∨ scale_numeric_sensor ns = LONG_MAX) := by
  have h0 : (0 : Int) ≤ (ns.current_reading : Int) := by positivity
  have h1 : (ns.current_reading : Int) ≤ 4294967296 := by
    omega
  by_cases hdir : ns.unit_modifier < targetModifier ns.sensor_type
  · obtain ⟨e1, e2, e3⟩ := scale_loop_down_chk_eq
      (targetModifier ns.sensor_type - ns.unit_modifier).toNat (ns.current_reading : Int) h0 h1
    have e3L : scale_loop_down (ns.current_reading : Int)
        (targetModifier ns.sensor_type - ns.unit_modifier).toNat ≤ LONG_MAX := by
      simp only [LONG_MAX]
      omega
    have hdp : decade_part ns = scale_loop_down (ns.current_reading : Int)
        (targetModifier ns.sensor_type - ns.unit_modifier).toNat := by
      simp only [decade_part, decade_scale, if_pos hdir]
    refine ⟨?_, Or.inl ?_, ?_⟩
    · simp only [scale_numeric_sensor_chk, decade_scale_chk, if_pos hdir, e1,
        scale_numeric_sensor, hdp]
      exact temp_adjust_chk_eq _ _ _ e2 e3L
    · rw [hdp]
      simp only [decade_unbounded, if_pos hdir]
    · intro hne
      left
      rw [scale_numeric_sensor, temp_adjust_id _ _ _ hne, scale_exact_id ns hne, hdp]
      simp only [decade_unbounded, if_pos hdir]
  · obtain ⟨e1, e2, e3, e4⟩ := scale_loop_up_chk_eq
      (ns.unit_modifier - targetModifier ns.sensor_type).toNat (ns.current_reading : Int) h0
      (by simp only [LONG_MAX]; omega)
    have hdp : decade_part ns = scale_loop_up (ns.current_reading : Int)
        (ns.unit_modifier - targetModifier ns.sensor_type).toNat := by
      simp only [decade_part, decade_scale, if_neg hdir]
    refine ⟨?_, ?_, ?_⟩
    · simp only [scale_numeric_sensor_chk, decade_scale_chk, if_neg hdir, e1,
        scale_numeric_sensor, hdp]
      exact temp_adjust_chk_eq _ _ _ e2 e3
    · rw [hdp]
      simp only [decade_unbounded, if_neg hdir]
      exact e4
    · intro hne
      rw [scale_numeric_sensor, temp_adjust_id _ _ _ hne, scale_exact_id ns hne, hdp]
      simp only [decade_unbounded, if_neg hdir]
      exact e4

/-- A Fahrenheit temperature sensor whose large positive modifier drives
the decade-growing loop into saturation. -/
def nsSat : NumericSensor :=
  { name := "", description := "", sensor_type := 2, other_sensor_type := "",
    operational_status := 2, current_state := "", possible_states := [],
    base_units := 3, unit_modifier := 20, current_reading := 10,
    possible_states_count := 1 }

set_option maxRecDepth 4000 in
/-- Counterexample for C2 as stated: on `nsSat` the decade loop saturates
to `LONG_MAX` and the Fahrenheit conversion is then applied to the
saturated value, so the result is neither the mathematically correct
scaled value nor the saturated maximum. -/
theorem scale_saturation_counterexample :
    scale_numeric_sensor nsSat ≠ scale_exact nsSat
    ∧ scale_numeric_sensor nsSat ≠ LONG_MAX
    ∧ scale_numeric_sensor nsSat = 5124095576030413225 := by
  decide

/-- Witness for C2 (amended): the checked evaluator succeeds on `nsSat`,
the saturating input itself. -/
theorem scale_no_wraparound_witness :
    scale_numeric_sensor_chk nsSat = some (scale_numeric_sensor nsSat) :=
  (scale_no_wraparound nsSat (by decide)).1

/-- Claim C5 (amended): for a Fahrenheit temperature sensor with modifier
-3 (so the decade loops are no-ops) and a u32 reading, the scaler
subtracts 32000 milli-units and then multiplies by 5 and divides by 9 with
C truncating division - not round-to-nearest; the `value * 5` side of the
split computation always applies for such readings.  In particular a raw
reading of 32000 scales to 0. -/
theorem fahrenheit_conversion_truncates (ns : NumericSensor)
    (hst : ns.sensor_type = 2) (hbu : ns.base_units = 3) (hum : ns.unit_modifier = -3)
    (hr : ns.current_reading < 4294967296) :
    scale_numeric_sensor ns = Int.tdiv (((ns.current_reading : Int) - 32000) * 5) 9 := by
  have htm : targetModifier ns.sensor_type = -3 := by
    simp [targetModifier, hst]
  have hdp : decade_part ns = (ns.current_reading : Int) := by
    simp [decade_part, decade_scale, htm, hum, scale_loop_up]
  have hle : (ns.current_reading : Int) - 32 * 1000 ≤ Int.tdiv LONG_MAX 5 := by
    have h5 : Int.tdiv LONG_MAX 5 = 1844674407370955161 := by decide
    rw [h5]
    omega
  rw [scale_numeric_sensor, hdp, temp_adjust, if_pos hst, if_pos hbu]
  simp only []
  rw [if_pos hle]
  norm_num

/-- A Fahrenheit temperature sensor with modifier -3 and reading 32003. -/
def ns32003 : NumericSensor :=
  { name := "", description := "", sensor_type := 2, other_sensor_type := "",
    operational_status := 2, current_state := "", possible_states := [],
    base_units := 3, unit_modifier := -3, current_reading := 32003,
    possible_states_count := 1 }

/-- Counterexample for C5 as stated: the code scales reading 32003 to 1
(truncating 15/9), while dividing by 9 rounding to nearest - the
`DIV_ROUND_CLOSEST` policy the claim describes - would give 2. -/
theorem fahrenheit_rounding_counterexample :
    scale_numeric_sensor ns32003 = 1
    ∧ div_round_closest ((32003 - 32000) * 5) 9 = 2 := by
  decide

/-- Witness for C5 (amended): raw reading 32000 with modifier -3 scales to
exactly 0 (32 degrees F = 0 degrees C). -/
theorem fahrenheit_conversion_truncates_witness :
    scale_numeric_sensor { ns32003 with current_reading := 32000 } = 0 := by
  rw [fahrenheit_conversion_truncates { ns32003 with current_reading := 32000 }
    rfl rfl rfl (by decide)]
  decide
